import Mathlib

/-!
Verification of the blackboard coordination store against its specification.

The definitions below are a shallow embedding of the Rust sources:
timestamps are modelled as `Int` seconds, the SQLite tables as Lean lists,
machine integers as `Int`/`Nat` with explicit bounds where overflow matters,
and fallible operations as `Except`-valued functions that also return the
(possibly unchanged) store state.
-/

namespace Blackboard

/-- Error taxonomy from `src/core/errors.rs` (the kinds the claims need). -/
inductive BBError where
  | invalidInput (msg : String)
  | invalidRefFormat (s : String)
  | pathTraversal (msg : String)
  | notFound (msg : String)
  | identityRequired
  deriving Repr, DecidableEq

deriving instance DecidableEq for Except

/-- Rust `char::is_control`: Unicode Cc category, i.e. U+0000..U+001F and U+007F..U+009F. -/
def isRustControl (c : Char) : Bool :=
  c.toNat < 32 || (127 ≤ c.toNat && c.toNat ≤ 159)

/-- `validate_agent_id` from `src/core/validation/limits.rs` (byte length, as Rust `str::len`). -/
def validate_agent_id (id : String) : Except BBError Unit :=
  if id.isEmpty then
    .error (.invalidInput "agent ID cannot be empty")
  else if id.utf8ByteSize > 64 then
    .error (.invalidInput "agent ID too long (max 64 chars)")
  else if id.data.any isRustControl then
    .error (.invalidInput "agent ID contains control characters")
  else
    .ok ()

/-- `validate_task` from `src/core/validation/limits.rs`. -/
def validate_task (task : String) : Except BBError Unit :=
  if task.utf8ByteSize > 256 then
    .error (.invalidInput "task too long (max 256 chars)")
  else
    .ok ()

/-- `validate_blockers` from `src/core/validation/limits.rs`. -/
def validate_blockers (blockers : String) : Except BBError Unit :=
  if blockers.utf8ByteSize > 1024 then
    .error (.invalidInput "blockers too long (max 1024 chars)")
  else
    .ok ()

/-- `validate_message_content` from `src/core/validation/limits.rs`. -/
def validate_message_content (content : String) : Except BBError Unit :=
  if content.isEmpty then
    .error (.invalidInput "message content cannot be empty")
  else if content.utf8ByteSize > 65536 then
    .error (.invalidInput "message content too long (max 65536 chars)")
  else
    .ok ()

/-- `validate_tags` from `src/core/validation/limits.rs`; `Char.isWhitespace` stands for
Rust `char::is_whitespace` (they agree on the ASCII fragment the claims use). -/
def validate_tags (tags : List String) : Except BBError Unit :=
  if tags.length > 10 then
    .error (.invalidInput "too many tags (max 10)")
  else if tags.any (fun t => t.isEmpty) then
    .error (.invalidInput "tag cannot be empty")
  else if tags.any (fun t => t.utf8ByteSize > 32) then
    .error (.invalidInput "tag too long (max 32 chars)")
  else if tags.any (fun t => t.data.any (fun c => isRustControl c || c.isWhitespace)) then
    .error (.invalidInput "tag contains invalid characters")
  else
    .ok ()

/-! ## Reference model (`src/core/models/reference.rs`, `src/util/ref_.rs`) -/

/-- The `ref` member of a reference triple: a JSON number or a JSON string
(`serde_json::Value` restricted to the two variants the program constructs). -/
inductive RefValue where
  | num (n : Int)
  | str (s : String)
  deriving Repr, DecidableEq

/-- The `{where, what, ref}` triple from `src/core/models/reference.rs`. -/
structure Reference where
  where_ : String
  what : String
  ref_ : RefValue
  deriving Repr, DecidableEq

/-- Numeric value of a list of decimal digit characters. -/
def digitsToNat (cs : List Char) : Nat :=
  cs.foldl (fun n c => n * 10 + (c.toNat - 48)) 0

/-- Largest value of Rust's `i64`. -/
def i64Max : Int := 9223372036854775807

/-- Smallest value of Rust's `i64`. -/
def i64Min : Int := -9223372036854775808

/-- Outcome of `parse_ref`: success, an `InvalidRefFormat` error, or an abnormal
termination (the Rust code calls `.parse::<i64>().unwrap()` on the digit string,
which panics when the value does not fit in an `i64`). -/
inductive ParseOutcome where
  | ok (r : Reference)
  | err (s : String)
  | panicked
  deriving Repr, DecidableEq

/-- Rust `str::split(':')`: splits the character list at every separator, keeping
empty pieces (an empty input yields one empty piece). -/
def splitOnChar (sep : Char) : List Char → List (List Char)
  | [] => [[]]
  | c :: rest =>
    match splitOnChar sep rest with
    | [] => if c = sep then [[], []] else [[c]]
    | g :: gs => if c = sep then [] :: g :: gs else (c :: g) :: gs

/-- Rust `str::trim`: drop leading and trailing whitespace
(`Char.isWhitespace` agrees with Rust on the ASCII fragment the claims use). -/
def rustTrim (cs : List Char) : List Char :=
  ((cs.dropWhile Char.isWhitespace).reverse.dropWhile Char.isWhitespace).reverse

/-- `parse_ref` from `src/util/ref_.rs`. -/
def parse_ref (s : String) : ParseOutcome :=
  match splitOnChar ':' s.data with
  | [p0, p1, p2] =>
    let w := rustTrim p0
    let t := rustTrim p1
    let r := rustTrim p2
    if w.isEmpty || t.isEmpty || r.isEmpty then
      .err s
    else if r.all Char.isDigit then
      if (digitsToNat r : Int) ≤ i64Max then
        .ok ⟨String.mk w, String.mk t, .num (digitsToNat r)⟩
      else
        .panicked
    else
      .ok ⟨String.mk w, String.mk t, .str (String.mk r)⟩
  | _ => .err s

/-! ## Liveness classifier (`src/core/operations/agent.rs`) -/

inductive Liveness where
  | active
  | stale
  | offline
  deriving Repr, DecidableEq

def LIVENESS_ACTIVE_MINUTES : Int := 5

def LIVENESS_STALE_MINUTES : Int := 30

/-- chrono's `Duration::num_minutes`: whole minutes, truncating toward zero
(`Int.tdiv` is Rust/C-style truncating division). Times are in seconds. -/
def num_minutes (elapsedSecs : Int) : Int :=
  Int.tdiv elapsedSecs 60

/-- `classify_liveness` from `src/core/operations/agent.rs`; `now` and `last_seen`
are timestamps in seconds, `elapsed = now - last_seen`. -/
def classify_liveness (now last_seen : Int) : Liveness :=
  let minutes := num_minutes (now - last_seen)
  if minutes ≤ LIVENESS_ACTIVE_MINUTES then .active
  else if minutes ≤ LIVENESS_STALE_MINUTES then .stale
  else .offline

lemma num_minutes_le_iff (e k : Int) (hk : 0 ≤ k) : num_minutes e ≤ k ↔ e < 60 * (k + 1) := by
  unfold num_minutes
  rcases le_or_lt 0 e with he | he
  · rw [Int.tdiv_eq_ediv he (by norm_num)]
    omega
  · have hn : (0 : Int) ≤ -e := by omega
    have hpos : 0 ≤ (-e).tdiv 60 := Int.tdiv_nonneg hn (by norm_num)
    have hneg : e.tdiv 60 = -((-e).tdiv 60) := by
      conv_lhs => rw [show e = -(-e) by omega]
      exact Int.neg_tdiv (-e) 60
    rw [hneg]
    omega

/-! ## Identity resolver (`src/mcp/identity.rs`) -/

/-- Per-session identity register from `src/mcp/identity.rs`. -/
structure IdentityResolver where
  fixed_agent : Option String
  env_agent : Option String
  resolved : Option String
  deriving Repr, DecidableEq

/-- `IdentityResolver::new`. -/
def IdentityResolver.new (fixed_agent env_agent : Option String) : IdentityResolver :=
  ⟨fixed_agent, env_agent, none⟩

/-- `IdentityResolver::resolve`: fixed, else env-bound, else resolved. -/
def IdentityResolver.resolve (r : IdentityResolver) : Option String :=
  (r.fixed_agent.or r.env_agent).or r.resolved

/-- The `IdentifyResponse` returned by `identify`. -/
structure IdentifyResponse where
  agent_id : String
  source : String
  deriving Repr, DecidableEq

/-- `IdentityResolver::identify`: validates the id, then applies the
fixed / env / resolved precedence with compare-and-fail single assignment.
Returns the response together with the (possibly updated) resolver. -/
def IdentityResolver.identify (r : IdentityResolver) (agent_id : String) :
    Except BBError (IdentifyResponse × IdentityResolver) :=
  match validate_agent_id agent_id with
  | .error e => .error e
  | .ok _ =>
    if r.fixed_agent.isSome then
      .error (.invalidInput "identity already fixed by --agent")
    else
      match r.env_agent with
      | some env_id =>
        if env_id ≠ agent_id then
          .error (.invalidInput "cannot change identity set by BB_AGENT_ID")
        else
          .ok (⟨agent_id, "env"⟩, r)
      | none =>
        match r.resolved with
        | some existing =>
          if existing ≠ agent_id then
            .error (.invalidInput "identity already set to a different value")
          else
            .ok (⟨agent_id, "identify"⟩, r)
        | none =>
          .ok (⟨agent_id, "identify"⟩, { r with resolved := some agent_id })

/-- `IdentityResolver::require_identity`. -/
def IdentityResolver.require_identity (r : IdentityResolver) : Except BBError String :=
  match r.resolve with
  | some id => .ok id
  | none => .error .identityRequired

/-- Claim C1 counterexample: with neither a fixed nor an env-bound identity and an
empty resolved slot, the claim says `identify(id)` sets the slot and succeeds for
every id; but `identify` first runs agent-id validation, so `identify("")` fails
with an InvalidInput error instead of succeeding with source `"identify"`. -/
theorem claim_C1_counterexample :
    (IdentityResolver.new none none).identify "" =
      Except.error (BBError.invalidInput "agent ID cannot be empty") := by
  decide

/-- Claim C1 (amended): provided the id passes agent-id validation (non-empty,
at most 64 bytes, no control characters), the identity resolver behaves as the
claim states: `resolve` returns the fixed identity, else the env-bound identity,
else the resolved slot; `identify(id)` fails whenever a fixed identity exists;
with an env-bound identity it succeeds as a no-op with source `"env"` iff the id
equals the env value, and fails otherwise; with an already-resolved slot it
succeeds as a no-op with source `"identify"` iff the id equals the stored value,
and fails otherwise; with neither it sets the resolved slot and succeeds with
source `"identify"`. -/
theorem claim_C1_identity_state_machine (r : IdentityResolver) (id : String)
    (hv : validate_agent_id id = .ok ()) :
    (∀ x, r.fixed_agent = some x → r.resolve = some x) ∧
    (∀ y, r.fixed_agent = none → r.env_agent = some y → r.resolve = some y) ∧
    (r.fixed_agent = none → r.env_agent = none → r.resolve = r.resolved) ∧
    (∀ x, r.fixed_agent = some x →
      r.identify id = .error (.invalidInput "identity already fixed by --agent")) ∧
    (∀ v, r.fixed_agent = none → r.env_agent = some v → id = v →
      r.identify id = .ok (⟨id, "env"⟩, r)) ∧
    (∀ v, r.fixed_agent = none → r.env_agent = some v → id ≠ v →
      r.identify id = .error (.invalidInput "cannot change identity set by BB_AGENT_ID")) ∧
    (∀ w, r.fixed_agent = none → r.env_agent = none → r.resolved = some w → id = w →
      r.identify id = .ok (⟨id, "identify"⟩, r)) ∧
    (∀ w, r.fixed_agent = none → r.env_agent = none → r.resolved = some w → id ≠ w →
      r.identify id = .error (.invalidInput "identity already set to a different value")) ∧
    (r.fixed_agent = none → r.env_agent = none → r.resolved = none →
      r.identify id = .ok (⟨id, "identify"⟩, { r with resolved := some id })) := by
  refine ⟨?_, ?_, ?_, ?_, ?_, ?_, ?_, ?_, ?_⟩
  · intro x hx
    simp [IdentityResolver.resolve, hx, Option.or]
  · intro y hfx hy
    simp [IdentityResolver.resolve, hfx, hy, Option.or]
  · intro hfx he
    simp [IdentityResolver.resolve, hfx, he, Option.or]
  · intro x hx
    simp [IdentityResolver.identify, hv, hx]
  · intro v hfx hv' hid
    subst hid
    simp [IdentityResolver.identify, hv, hfx, hv']
  · intro v hfx hv' hid
    have hne : v ≠ id := Ne.symm hid
    simp [IdentityResolver.identify, hv, hfx, hv', hne]
  · intro w hfx he hres hid
    subst hid
    simp [IdentityResolver.identify, hv, hfx, he, hres]
  · intro w hfx he hres hid
    have hne : w ≠ id := Ne.symm hid
    simp [IdentityResolver.identify, hv, hfx, he, hres, hne]
  · intro hfx he hres
    simp [IdentityResolver.identify, hv, hfx, he, hres]

/-- Claim C1 witness: the amended state machine applied to the spec's test
vectors — fixed `"A"` with env `"B"` resolves to `"A"` and rejects
`identify("C")`; env-only `"B"` accepts `identify("B")` as an env no-op and
rejects `identify("C")`; with neither, `identify("X")` succeeds and a second
`identify("X")` is a no-op while `identify("Y")` fails. -/
theorem claim_C1_witness :
    (IdentityResolver.new (some "A") (some "B")).resolve = some "A" ∧
    (IdentityResolver.new (some "A") (some "B")).identify "C" =
      .error (.invalidInput "identity already fixed by --agent") ∧
    (IdentityResolver.new none (some "B")).identify "B" =
      .ok (⟨"B", "env"⟩, IdentityResolver.new none (some "B")) ∧
    (IdentityResolver.new none (some "B")).identify "C" =
      .error (.invalidInput "cannot change identity set by BB_AGENT_ID") ∧
    (IdentityResolver.new none none).identify "X" =
      .ok (⟨"X", "identify"⟩, ⟨none, none, some "X"⟩) ∧
    (⟨none, none, some "X"⟩ : IdentityResolver).identify "X" =
      .ok (⟨"X", "identify"⟩, ⟨none, none, some "X"⟩) ∧
    (⟨none, none, some "X"⟩ : IdentityResolver).identify "Y" =
      .error (.invalidInput "identity already set to a different value") :=
  ⟨(claim_C1_identity_state_machine (.new (some "A") (some "B")) "A" (by decide)).1
      "A" rfl,
   (claim_C1_identity_state_machine (.new (some "A") (some "B")) "C" (by decide)).2.2.2.1
      "A" rfl,
   (claim_C1_identity_state_machine (.new none (some "B")) "B" (by decide)).2.2.2.2.1
      "B" rfl rfl rfl,
   (claim_C1_identity_state_machine (.new none (some "B")) "C" (by decide)).2.2.2.2.2.1
      "B" rfl rfl (by decide),
   (claim_C1_identity_state_machine (.new none none) "X" (by decide)).2.2.2.2.2.2.2.2
      rfl rfl rfl,
   (claim_C1_identity_state_machine (⟨none, none, some "X"⟩ : IdentityResolver) "X"
      (by decide)).2.2.2.2.2.2.1 "X" rfl rfl rfl rfl,
   (claim_C1_identity_state_machine (⟨none, none, some "X"⟩ : IdentityResolver) "Y"
      (by decide)).2.2.2.2.2.2.2.1 "X" rfl rfl rfl (by decide)⟩

/-- Claim C6: `parse_ref` on `"a:b:99999999999999999999"` — exactly three parts,
all non-empty after trimming, third all ASCII digits — terminates abnormally
instead of returning a numeric `Reference`: the Rust code runs
`ref_str.parse::<i64>().unwrap()`, and the 20-digit value overflows `i64`,
so the `unwrap` panics. This contradicts the claim that `parse(s)` returns a
`Reference` for every such shape and never terminates abnormally. -/
theorem claim_C6_parse_panics_on_overflow :
    parse_ref "a:b:99999999999999999999" = ParseOutcome.panicked := by
  decide

/-- Claim C7 counterexample: at elapsed time 330 s = 5.5 minutes, which is
strictly greater than 5 minutes and at most 30 minutes, the claim says the
classification is Stale; the code truncates to whole minutes
(`num_minutes 330 = 5 ≤ 5`) and returns Active. -/
theorem claim_C7_counterexample :
    5 * 60 < (330 : Int) - 0 ∧ (330 : Int) - 0 ≤ 30 * 60 ∧
      classify_liveness 330 0 ≠ Liveness.stale := by
  decide

/-- Claim C7 (amended): `classify_liveness` truncates the elapsed time to whole
minutes before comparing with the 5- and 30-minute thresholds, so Active covers
every elapsed time below 6 minutes, Stale covers 6 minutes up to but excluding
31 minutes, and Offline everything from 31 minutes on; in particular elapsed
times of exactly 5 and exactly 30 minutes classify as the lower-elapsed
category (Active resp. Stale). -/
theorem claim_C7_classify_truncates_to_minutes (now last_seen : Int) :
    (now - last_seen < 6 * 60 → classify_liveness now last_seen = .active) ∧
    (6 * 60 ≤ now - last_seen → now - last_seen < 31 * 60 →
      classify_liveness now last_seen = .stale) ∧
    (31 * 60 ≤ now - last_seen → classify_liveness now last_seen = .offline) := by
  have h5 := num_minutes_le_iff (now - last_seen) 5 (by norm_num)
  have h30 := num_minutes_le_iff (now - last_seen) 30 (by norm_num)
  unfold classify_liveness LIVENESS_ACTIVE_MINUTES LIVENESS_STALE_MINUTES
  refine ⟨fun h => ?_, fun h1 h2 => ?_, fun h => ?_⟩
  · rw [if_pos (h5.mpr (by omega))]
  · rw [if_neg (by rw [h5]; omega), if_pos (h30.mpr (by omega))]
  · rw [if_neg (by rw [h5]; omega), if_neg (by rw [h30]; omega)]

/-- Claim C7 witness: the amended classification evaluated at elapsed times of
200 s, 900 s and 2000 s. -/
theorem claim_C7_witness :
    classify_liveness 200 0 = Liveness.active ∧
    classify_liveness 900 0 = Liveness.stale ∧
    classify_liveness 2000 0 = Liveness.offline :=
  ⟨(claim_C7_classify_truncates_to_minutes 200 0).1 (by norm_num),
   (claim_C7_classify_truncates_to_minutes 900 0).2.1 (by norm_num) (by norm_num),
   (claim_C7_classify_truncates_to_minutes 2000 0).2.2 (by norm_num)⟩

/-! ## Agent model and operations
(`src/core/models/agent.rs`, `src/db/queries/agent.rs`, `src/core/operations/agent.rs`) -/

inductive AgentStatus where
  | idle
  | planning
  | coding
  | testing
  | reviewing
  | blocked
  | offline
  deriving Repr, DecidableEq

/-- The Agent row; timestamps in seconds. -/
structure Agent where
  id : String
  current_task : String
  progress : Nat
  status : AgentStatus
  blockers : Option String
  last_seen : Int
  updated_at : Int
  deriving Repr, DecidableEq

/-- `Agent::new`. -/
def Agent.new (id : String) (now : Int) : Agent :=
  ⟨id, "", 0, .idle, none, now, now⟩

/-- The agents table, rows in insertion (rowid) order. -/
def get_agent (db : List Agent) (agent_id : String) : Option Agent :=
  db.find? (fun a => a.id == agent_id)

/-- `upsert_agent`: `INSERT .. ON CONFLICT(id) DO UPDATE` — replaces every field of
the conflicting row in place, else appends. -/
def upsert_agent (db : List Agent) (a : Agent) : List Agent :=
  if db.any (fun b => b.id == a.id) then
    db.map (fun b => if b.id == a.id then a else b)
  else
    db ++ [a]

/-- The field updates of `update_agent_status` in source order: task, clamped
progress, status (clearing blockers when the new status is not Blocked), then a
supplied blockers value, then the `last_seen`/`updated_at` stamps. -/
def apply_agent_update (a0 : Agent) (now : Int) (current_task : Option String)
    (progress : Option Nat) (status : Option AgentStatus)
    (blockers : Option String) : Agent :=
  let a1 := match current_task with
    | none => a0
    | some task => { a0 with current_task := task }
  let a2 := match progress with
    | none => a1
    | some prog => { a1 with progress := min prog 100 }
  let a3 := match status with
    | none => a2
    | some stat =>
      if stat ≠ AgentStatus.blocked then { a2 with status := stat, blockers := none }
      else { a2 with status := stat }
  let a4 := match blockers with
    | none => a3
    | some blocks => { a3 with blockers := some blocks }
  { a4 with last_seen := now, updated_at := now }

/-- `update_agent_status` from `src/core/operations/agent.rs`: validations in
source order (agent id, then task, then blockers), then the field pipeline of
`apply_agent_update` followed by the upsert; on any validation error the store
is left untouched. -/
def update_agent_status (db : List Agent) (now : Int) (agent_id : String)
    (current_task : Option String) (progress : Option Nat)
    (status : Option AgentStatus) (blockers : Option String) :
    Except BBError Agent × List Agent :=
  match validate_agent_id agent_id with
  | .error e => (.error e, db)
  | .ok _ =>
    match (match current_task with
           | some task => validate_task task
           | none => .ok ()) with
    | .error e => (.error e, db)
    | .ok _ =>
      match (match blockers with
             | some blocks => validate_blockers blocks
             | none => .ok ()) with
      | .error e => (.error e, db)
      | .ok _ =>
        let a0 := (get_agent db agent_id).getD (Agent.new agent_id now)
        let agent := apply_agent_update a0 now current_task progress status blockers
        (.ok agent, upsert_agent db agent)

/-- `update_offline_status`: `UPDATE agents SET status = offline WHERE status !=
offline AND datetime(last_seen) < datetime(now, -stale_minutes minutes)`. -/
def update_offline_status (db : List Agent) (now : Int) (stale_minutes : Int) :
    List Agent :=
  db.map (fun a =>
    if a.status ≠ AgentStatus.offline ∧ a.last_seen < now - stale_minutes * 60 then
      { a with status := AgentStatus.offline }
    else a)

/-- Insert into a list sorted by a descending key (helper for `ORDER BY .. DESC`). -/
def insertDesc {α : Type} (key : α → Int) (x : α) : List α → List α
  | [] => [x]
  | y :: ys => if key y ≤ key x then x :: y :: ys else y :: insertDesc key x ys

/-- Insertion sort by a descending key, modelling `ORDER BY .. DESC`
(SQLite leaves the relative order of equal keys unspecified; this
determinisation is stable). -/
def sortByKeyDesc {α : Type} (key : α → Int) : List α → List α
  | [] => []
  | x :: xs => insertDesc key x (sortByKeyDesc key xs)

/-- `get_all_agents`: all rows ordered by `last_seen` descending. -/
def get_all_agents (db : List Agent) : List Agent :=
  sortByKeyDesc (fun a => a.last_seen) db

/-- `get_all_agents_with_liveness` from `src/core/operations/agent.rs`: first the
offline sweep side effect, then the ordered read. Returns the listed rows and
the post-state of the table. -/
def get_all_agents_with_liveness (db : List Agent) (now : Int) :
    List Agent × List Agent :=
  let db2 := update_offline_status db now LIVENESS_STALE_MINUTES
  (get_all_agents db2, db2)

/-- Claim C2 counterexample: updating an agent with status Coding and a supplied
blockers value stores the blockers — the blockers argument is applied after the
status-based clearing, so the result has `blockers = Some "x"` although the
update explicitly set a status other than Blocked, contradicting the claim that
the resulting blockers field is None in that case. -/
theorem claim_C2_counterexample :
    ((update_agent_status [] 0 "agent-1" none none
        (some AgentStatus.coding) (some "x")).1).map
        (fun a => (a.status, a.blockers)) =
      Except.ok (AgentStatus.coding, some "x") := by
  decide

/-- Claim C2 (amended): on a successful status update, the resulting blockers
field is None whenever the update sets a status other than Blocked and no
blockers argument is supplied; a supplied blockers argument is always stored,
even together with a non-Blocked status; and with no blockers argument and no
status change to a non-Blocked value, the stored blockers of the existing row
(or the default None for a fresh row) are retained. -/
theorem claim_C2_blockers_rules (db : List Agent) (now : Int) (agent_id : String)
    (current_task : Option String) (progress : Option Nat)
    (status : Option AgentStatus) (blockers : Option String)
    (a : Agent) (db2 : List Agent)
    (h : update_agent_status db now agent_id current_task progress status blockers
        = (.ok a, db2)) :
    (∀ s, status = some s → s ≠ AgentStatus.blocked → blockers = none →
      a.blockers = none) ∧
    (∀ b, blockers = some b → a.blockers = some b) ∧
    (blockers = none → (status = none ∨ status = some AgentStatus.blocked) →
      a.blockers = ((get_agent db agent_id).getD (Agent.new agent_id now)).blockers) := by
  unfold update_agent_status at h
  split at h
  · simp at h
  · split at h
    · simp at h
    · split at h
      · simp at h
      · rw [Prod.mk.injEq, Except.ok.injEq] at h
        obtain ⟨rfl, -⟩ := h
        refine ⟨?_, ?_, ?_⟩
        · rintro s rfl hs rfl
          simp [apply_agent_update, hs]
        · rintro b rfl
          simp [apply_agent_update]
        · rintro rfl (rfl | rfl) <;>
            cases current_task <;> cases progress <;>
              simp [apply_agent_update]

/-- Claim C2 witness: an agent stored as Blocked with blockers `"b0"`, updated to
Coding with no blockers argument, comes out with `blockers = None`. -/
theorem claim_C2_witness :
    (update_agent_status [⟨"a1", "t", 10, AgentStatus.blocked, some "b0", 5, 5⟩]
        9 "a1" none none (some AgentStatus.coding) none) =
      (.ok ⟨"a1", "t", 10, AgentStatus.coding, none, 9, 9⟩,
       [⟨"a1", "t", 10, AgentStatus.coding, none, 9, 9⟩]) ∧
    (⟨"a1", "t", 10, AgentStatus.coding, none, 9, 9⟩ : Agent).blockers = none :=
  have h : (update_agent_status [⟨"a1", "t", 10, AgentStatus.blocked, some "b0", 5, 5⟩]
      9 "a1" none none (some AgentStatus.coding) none) =
      (.ok ⟨"a1", "t", 10, AgentStatus.coding, none, 9, 9⟩,
       [⟨"a1", "t", 10, AgentStatus.coding, none, 9, 9⟩]) := by decide
  ⟨h, (claim_C2_blockers_rules _ _ _ _ _ _ _ _ _ h).1 AgentStatus.coding rfl
    (by decide) rfl⟩

/-- `List.getD` through `List.map` at an in-bounds index. -/
lemma getD_map_of_lt {α β : Type} (f : α → β) :
    ∀ (l : List α) (i : Nat) (d : β) (e : α), i < l.length →
      (l.map f).getD i d = f (l.getD i e)
  | [], i, _, _, h => absurd h (by simp)
  | x :: xs, 0, d, e, _ => by simp [List.getD]
  | x :: xs, i + 1, d, e, h => by
    simpa [List.getD] using getD_map_of_lt f xs i d e (by simpa using h)

/-- Claim C4: the persisted effect of the "list all agents" read: the table keeps
its length, every row that was not Offline and whose `last_seen` is older than
30 minutes is persisted as Offline, every other row is unchanged, and no field
other than `status` changes on any row. -/
theorem claim_C4_offline_sweep (db : List Agent) (now : Int) (i : Nat) (e : Agent)
    (h : i < db.length) :
    ((get_all_agents_with_liveness db now).2).length = db.length ∧
    ((db.getD i e).status ≠ AgentStatus.offline →
      (db.getD i e).last_seen < now - 30 * 60 →
      ((get_all_agents_with_liveness db now).2.getD i e).status =
        AgentStatus.offline) ∧
    ((db.getD i e).status = AgentStatus.offline ∨
        ¬(db.getD i e).last_seen < now - 30 * 60 →
      (get_all_agents_with_liveness db now).2.getD i e = db.getD i e) ∧
    ((get_all_agents_with_liveness db now).2.getD i e).id = (db.getD i e).id ∧
    ((get_all_agents_with_liveness db now).2.getD i e).current_task =
      (db.getD i e).current_task ∧
    ((get_all_agents_with_liveness db now).2.getD i e).progress =
      (db.getD i e).progress ∧
    ((get_all_agents_with_liveness db now).2.getD i e).blockers =
      (db.getD i e).blockers ∧
    ((get_all_agents_with_liveness db now).2.getD i e).last_seen =
      (db.getD i e).last_seen ∧
    ((get_all_agents_with_liveness db now).2.getD i e).updated_at =
      (db.getD i e).updated_at := by
  have hpost : (get_all_agents_with_liveness db now).2
      = db.map (fun a =>
          if a.status ≠ AgentStatus.offline ∧ a.last_seen < now - 30 * 60 then
            { a with status := AgentStatus.offline }
          else a) := by
    simp [get_all_agents_with_liveness, update_offline_status, LIVENESS_STALE_MINUTES]
  rw [hpost, List.length_map, getD_map_of_lt _ db i e e h]
  refine ⟨rfl, fun hs hl => by rw [if_pos ⟨hs, hl⟩],
    fun hor => by
      rw [if_neg]
      rintro ⟨hc1, hc2⟩
      rcases hor with h1 | h1
      · exact hc1 h1
      · exact h1 hc2,
    ?_, ?_, ?_, ?_, ?_, ?_⟩ <;> (split <;> rfl)

/-- Claim C4 witness: a Coding agent last seen 40 minutes in the past is
persisted as Offline by the "list all agents" read. -/
theorem claim_C4_witness :
    ((get_all_agents_with_liveness
        [⟨"a1", "t", 10, AgentStatus.coding, none, -2400, -2400⟩] 0).2.getD 0
        ⟨"a1", "t", 10, AgentStatus.coding, none, -2400, -2400⟩).status =
      AgentStatus.offline :=
  (claim_C4_offline_sweep [⟨"a1", "t", 10, AgentStatus.coding, none, -2400, -2400⟩]
      0 0 ⟨"a1", "t", 10, AgentStatus.coding, none, -2400, -2400⟩
      (by decide)).2.1 (by decide) (by decide)

/-- `touch_agent` from `src/core/operations/agent.rs`. -/
def touch_agent (db : List Agent) (now : Int) (agent_id : String) :
    Except BBError (List Agent) :=
  match validate_agent_id agent_id with
  | .error e => .error e
  | .ok _ =>
    let agent := (get_agent db agent_id).getD (Agent.new agent_id now)
    .ok (upsert_agent db { agent with last_seen := now })

/-- Output row of the `get_status` tool. -/
structure AgentWithLiveness where
  agent : Agent
  liveness : String
  minutes_since_last_seen : Int
  deriving Repr, DecidableEq

/-- `format!` of a `Liveness` value, lower-cased. -/
def liveness_str : Liveness → String
  | .active => "active"
  | .stale => "stale"
  | .offline => "offline"

/-- Decoration of one agent row as produced by the `get_status` tool. -/
def with_liveness (now : Int) (a : Agent) : AgentWithLiveness :=
  ⟨a, liveness_str (classify_liveness now a.last_seen), num_minutes (now - a.last_seen)⟩

/-- The touch step at the start of the `get_status` tool (`src/mcp/tools.rs`):
when the session identity resolves, `touch_agent` for that identity; errors of
the touch are discarded (the Rust code ignores the result of the blocking
task, `let _ = ...`). -/
def touched_db (r : IdentityResolver) (db : List Agent) (now : Int) : List Agent :=
  match r.resolve with
  | some id =>
    match touch_agent db now id with
    | .ok db2 => db2
    | .error _ => db
  | none => db

/-- The `get_status` tool from `src/mcp/tools.rs`: the touch step, then either
the single-agent read or the all-agents read with the offline sweep. Returns
the response and the post-state of the agents table. -/
def get_status (r : IdentityResolver) (db : List Agent) (now : Int)
    (input_agent_id : Option String) :
    Except BBError (List AgentWithLiveness) × List Agent :=
  let db1 := touched_db r db now
  match input_agent_id with
  | some aid =>
    match validate_agent_id aid with
    | .error e => (.error e, db1)
    | .ok _ =>
      match get_agent db1 aid with
      | some a => (.ok [with_liveness now a], db1)
      | none => (.error (.notFound s!"agent {aid} not found"), db1)
  | none =>
    let pair := get_all_agents_with_liveness db1 now
    (.ok (pair.1.map (with_liveness now)), pair.2)

/-- `List.find?` only depends on the predicate pointwise. -/
lemma find?_congr_pred {α : Type} (p q : α → Bool) (hpq : ∀ a, p a = q a) :
    ∀ l : List α, l.find? p = l.find? q
  | [] => rfl
  | x :: xs => by
    by_cases hx : p x
    · rw [List.find?_cons_of_pos _ hx, List.find?_cons_of_pos _ (by rw [← hpq]; exact hx)]
    · rw [List.find?_cons_of_neg _ hx, List.find?_cons_of_neg _ (by rw [← hpq]; exact hx),
        find?_congr_pred p q hpq xs]

/-- After an upsert, looking up the upserted id finds exactly the upserted row. -/
lemma find?_upsert (db : List Agent) (x : Agent) :
    (upsert_agent db x).find? (fun a => a.id == x.id) = some x := by
  induction db with
  | nil =>
    show ((if ([] : List Agent).any (fun b => b.id == x.id) then _ else _) :
        List Agent).find? _ = _
    rw [if_neg (by simp)]
    exact List.find?_cons_of_pos _ (by simp)
  | cons b rest ih =>
    by_cases hb : b.id = x.id
    · have hany : ((b :: rest).any (fun c => c.id == x.id)) = true := by simp [hb]
      unfold upsert_agent
      rw [if_pos hany, List.map_cons, if_pos (by simpa using hb)]
      exact List.find?_cons_of_pos _ (by simp)
    · have hstep : upsert_agent (b :: rest) x = b :: upsert_agent rest x := by
        by_cases hr : (rest.any (fun c => c.id == x.id)) = true
        · unfold upsert_agent
          rw [if_pos (by simp [hr]), if_pos hr, List.map_cons,
            if_neg (by simpa using hb)]
        · unfold upsert_agent
          rw [if_neg (by simp [hb, hr]), if_neg hr]
          rfl
      rw [hstep, List.find?_cons_of_neg _ (by simpa using hb)]
      exact ih

/-- The existing-or-fresh agent row fetched by `touch_agent` carries the id. -/
lemma get_agent_getD_id (db : List Agent) (id : String) (now : Int) :
    ((get_agent db id).getD (Agent.new id now)).id = id := by
  unfold get_agent
  cases hf : db.find? (fun a => a.id == id) with
  | none => rfl
  | some a0 =>
    have h1 := List.find?_some hf
    simp at h1 ⊢
    exact h1

/-- The offline sweep commutes with an id lookup: it maps the found row. -/
lemma get_agent_update_offline (db : List Agent) (now sm : Int) (id : String) :
    get_agent (update_offline_status db now sm) id =
      (get_agent db id).map (fun a =>
        if a.status ≠ AgentStatus.offline ∧ a.last_seen < now - sm * 60 then
          { a with status := AgentStatus.offline }
        else a) := by
  unfold get_agent update_offline_status
  rw [List.find?_map]
  congr 1
  apply find?_congr_pred
  intro a
  dsimp [Function.comp]
  split <;> rfl

/-- Claim C10 counterexample: a session whose resolved identity does not pass
agent-id validation (here a fixed identity consisting of one control character)
is resolved, yet `get_status` performs no upsert for it: `touch_agent` fails
validation and the failure is discarded, so the claim that every `get_status`
call with a resolved identity upserts that identity row is false. -/
theorem claim_C10_counterexample :
    (IdentityResolver.new (some "\x00") none).resolve = some "\x00" ∧
    get_agent (get_status (IdentityResolver.new (some "\x00") none) [] 0 none).2
      "\x00" = none := by
  decide

/-- Claim C10 (amended): whenever the session identity resolves to an id that
passes agent-id validation, every `get_status` call — on any input, including
the single-agent path and the error paths — first upserts that id row into
the agents table with `last_seen` set to the current time: afterwards the
table contains the id keyed row, freshly created with default fields when it
was absent, and otherwise equal to the previous row with only `last_seen`
restamped. -/
theorem claim_C10_get_status_upserts (r : IdentityResolver) (db : List Agent)
    (now : Int) (input_agent_id : Option String) (id : String)
    (hres : r.resolve = some id) (hv : validate_agent_id id = .ok ()) :
    (get_agent db id = none →
      get_agent (get_status r db now input_agent_id).2 id =
        some (Agent.new id now)) ∧
    (∀ a0, get_agent db id = some a0 →
      get_agent (get_status r db now input_agent_id).2 id =
        some { a0 with last_seen := now }) := by
  obtain ⟨a0, ha0, ha0id⟩ :
      ∃ a0, (get_agent db id).getD (Agent.new id now) = a0 ∧ a0.id = id :=
    ⟨_, rfl, get_agent_getD_id db id now⟩
  have htouch : touched_db r db now =
      upsert_agent db { a0 with last_seen := now } := by
    simp [touched_db, hres, touch_agent, hv, ha0]
  have hfind : get_agent (touched_db r db now) id =
      some { a0 with last_seen := now } := by
    rw [htouch]
    have h1 := find?_upsert db { a0 with last_seen := now }
    have hpred : (fun (a : Agent) => a.id == ({ a0 with last_seen := now } : Agent).id)
        = fun (a : Agent) => a.id == id := by
      funext a
      rw [show ({ a0 with last_seen := now } : Agent).id = a0.id from rfl, ha0id]
    rw [hpred] at h1
    exact h1
  have hfin : get_agent (get_status r db now input_agent_id).2 id =
      some { a0 with last_seen := now } := by
    unfold get_status
    cases input_agent_id with
    | some aid =>
      cases hva : validate_agent_id aid with
      | error e => simpa [hva] using hfind
      | ok u =>
        cases hga : get_agent (touched_db r db now) aid with
        | some a => simpa [hva, hga] using hfind
        | none => simpa [hva, hga] using hfind
    | none =>
      show get_agent
        (update_offline_status (touched_db r db now) now LIVENESS_STALE_MINUTES) id = _
      rw [get_agent_update_offline, hfind]
      have hcond : ¬(({ a0 with last_seen := now } : Agent).status ≠ AgentStatus.offline ∧
          ({ a0 with last_seen := now } : Agent).last_seen <
            now - LIVENESS_STALE_MINUTES * 60) := by
        rintro ⟨-, hlt⟩
        rw [show ({ a0 with last_seen := now } : Agent).last_seen = now from rfl,
          show LIVENESS_STALE_MINUTES = (30 : Int) from rfl] at hlt
        omega
      simp only [Option.map, if_neg hcond]
  constructor
  · intro hnone
    rw [hnone] at ha0
    rw [hfin, ← ha0]
    rfl
  · intro b0 h0
    rw [h0] at ha0
    rw [hfin, ← ha0]
    rfl

/-- Claim C10 witness: a session with fixed identity `"A"` and an empty agents
table; after `get_status` the table holds a fresh default row for `"A"` with
`last_seen` equal to the call time. -/
theorem claim_C10_witness :
    get_agent (get_status (IdentityResolver.new (some "A") none) [] 7 none).2 "A" =
      some (Agent.new "A" 7) :=
  (claim_C10_get_status_upserts (IdentityResolver.new (some "A") none) [] 7 none "A"
      rfl (by decide)).1 rfl

/-! ## Message model and queries
(`src/core/models/message.rs`, `src/db/queries/message.rs`,
`src/core/operations/message.rs`) -/

inductive Priority where
  | low
  | normal
  | high
  | critical
  deriving Repr, DecidableEq

/-- `Priority::level` from `src/core/models/message.rs`: 0, 1, 2, 3. -/
def Priority.level : Priority → Int
  | .low => 0
  | .normal => 1
  | .high => 2
  | .critical => 3

/-- The `CASE m.priority .. END` ordinal of the SQL priority filter in
`list_messages` (`src/db/queries/message.rs`): 1, 2, 3, 4. -/
def sql_priority_case : Priority → Int
  | .low => 1
  | .normal => 2
  | .high => 3
  | .critical => 4

structure Message where
  id : Int
  from_agent : String
  content : String
  tags : List String
  priority : Priority
  in_reply_to : Option Int
  refs : List Reference
  created_at : Int
  deriving Repr, DecidableEq

/-- The messages table: rows in rowid order plus the next rowid to assign. -/
structure MessageDb where
  rows : List Message
  next_rowid : Int
  deriving Repr, DecidableEq

/-- `insert_message`: appends the row and returns `last_insert_rowid`. -/
def insert_message (db : MessageDb) (m : Message) : Int × MessageDb :=
  (db.next_rowid, ⟨db.rows ++ [{ m with id := db.next_rowid }], db.next_rowid + 1⟩)

/-- `get_message`: `SELECT .. WHERE id = ?1`. -/
def get_message (db : MessageDb) (mid : Int) : Option Message :=
  db.rows.find? (fun m => m.id == mid)

/-- An SQL value as compared inside the reference-filter clauses: SQLite
INTEGER or TEXT. `json_extract` results and bound parameters carry no column
affinity, so INTEGER and TEXT compare unequal. -/
inductive SqlValue where
  | int (n : Int)
  | text (s : String)
  deriving Repr, DecidableEq

/-- `json_extract(value, $.ref)` of a stored ref: a JSON number extracts as
INTEGER, a JSON string as TEXT. -/
def jsonExtractRef : RefValue → SqlValue
  | .num n => .int n
  | .str s => .text s

/-- Rust `str::parse::<i64>`: optional sign, at least one ASCII digit, value
within the `i64` range. -/
def rustParseI64 (s : String) : Option Int :=
  let core : Int → List Char → Option Int := fun sign ds =>
    if ds.isEmpty then none
    else if ds.all Char.isDigit then
      let v : Int := sign * (digitsToNat ds : Int)
      if i64Min ≤ v ∧ v ≤ i64Max then some v else none
    else none
  match s.data with
  | '+' :: rest => core 1 rest
  | '-' :: rest => core (-1) rest
  | ds => core 1 ds

/-- The ref parameter binding of `list_messages`/`list_artifacts`: the lookup
string is bound as INTEGER when it parses as `i64`, else as TEXT. -/
def refLookupParam (rv : String) : SqlValue :=
  match rustParseI64 rv with
  | some n => .int n
  | none => .text rv

/-- The `EXISTS` row test of the optional reference filter in
`list_messages`/`list_artifacts`: plain SQL equality of the extracted ref
against the bound parameter. -/
def ref_clause_matches (r : Reference) (w t rv : String) : Bool :=
  r.where_ == w && r.what == t &&
    decide (jsonExtractRef r.ref_ = refLookupParam rv)

/-- `CAST(json_extract(value, $.ref) AS TEXT)`: INTEGER renders as its decimal
text, TEXT stays. -/
def castRefText : RefValue → String
  | .num n => toString n
  | .str s => s

/-- The text parameter of `find_messages_by_ref`/`find_artifacts_by_ref`:
`Number::to_string` for a JSON number, the string itself for a JSON string. -/
def findRefParam : RefValue → String
  | .num n => toString n
  | .str s => s

/-- The `EXISTS` row test of `find_messages_by_ref`/`find_artifacts_by_ref`:
`where`/`what` equality and text-cast equality on the ref. -/
def find_ref_matches (r : Reference) (w t : String) (rv : RefValue) : Bool :=
  r.where_ == w && r.what == t && castRefText r.ref_ == findRefParam rv

/-- The conversion of the `find_refs` tool input string (`src/mcp/tools.rs`):
try a number first, else keep the string. -/
def refInputToJson (s : String) : RefValue :=
  match rustParseI64 s with
  | some n => .num n
  | none => .str s

/-- The `WHERE` clause of `list_messages`: conjunction of the supplied
filters — minimum `created_at`, exact `from_agent`, the priority CASE ordinal
at least the requested `level()`, tag membership, and the optional exact
reference triple (built only when all three parts are supplied). -/
def message_matches (m : Message) (since : Option Int) (tags : List String)
    (from_agent : Option String) (priority : Option Priority)
    (ref_where ref_what ref_ref : Option String) : Bool :=
  (match since with
   | some s => decide (s ≤ m.created_at)
   | none => true) &&
  (match from_agent with
   | some f => m.from_agent == f
   | none => true) &&
  (match priority with
   | some p => decide (Priority.level p ≤ sql_priority_case m.priority)
   | none => true) &&
  (tags.isEmpty || m.tags.any (fun v => tags.contains v)) &&
  (match ref_where, ref_what, ref_ref with
   | some w, some t, some rv => m.refs.any (fun r => ref_clause_matches r w t rv)
   | _, _, _ => true)

/-- `list_messages` from `src/db/queries/message.rs`: filter, newest first,
`LIMIT min(limit, 100)`. -/
def list_messages (db : MessageDb) (since : Option Int) (tags : List String)
    (from_agent : Option String) (priority : Option Priority)
    (ref_where ref_what ref_ref : Option String) (limit : Nat) : List Message :=
  (sortByKeyDesc (fun m => m.created_at)
    (db.rows.filter (fun m =>
      message_matches m since tags from_agent priority ref_where ref_what ref_ref))).take
    (min limit 100)

/-- `find_messages_by_ref` from `src/db/queries/message.rs`. -/
def find_messages_by_ref (db : MessageDb) (w t : String) (rv : RefValue) :
    List Message :=
  sortByKeyDesc (fun m => m.created_at)
    (db.rows.filter (fun m => m.refs.any (fun r => find_ref_matches r w t rv)))

/-- `post_message` from `src/core/operations/message.rs`: content, tags and
ref-count validation, then the reply-target existence check, then the insert. -/
def post_message (db : MessageDb) (now : Int) (from_agent content : String)
    (tags : List String) (priority : Priority) (in_reply_to : Option Int)
    (refs : List Reference) : Except BBError Message × MessageDb :=
  match validate_message_content content with
  | .error e => (.error e, db)
  | .ok _ =>
    match validate_tags tags with
    | .error e => (.error e, db)
    | .ok _ =>
      if refs.length > 20 then
        (.error (.invalidInput "too many refs (max 20)"), db)
      else
        match in_reply_to with
        | some reply_to =>
          if (get_message db reply_to).isNone then
            (.error (.notFound s!"message {reply_to} not found"), db)
          else
            let msg : Message := ⟨0, from_agent, content, tags, priority, some reply_to, refs, now⟩
            let idDb := insert_message db msg
            (.ok { msg with id := idDb.1 }, idDb.2)
        | none =>
          let msg : Message := ⟨0, from_agent, content, tags, priority, none, refs, now⟩
          let idDb := insert_message db msg
          (.ok { msg with id := idDb.1 }, idDb.2)

/-! ## Artifact model and queries
(`src/core/models/artifact.rs`, `src/db/queries/artifact.rs`) -/

structure Artifact where
  id : Int
  path : String
  produced_by : String
  description : String
  version : Option String
  refs : List Reference
  created_at : Int
  deriving Repr, DecidableEq

structure ArtifactDb where
  rows : List Artifact
  next_rowid : Int
  deriving Repr, DecidableEq

/-- `upsert_artifact`: `INSERT .. ON CONFLICT(path) DO UPDATE` — replaces every
mutable field of the conflicting row in place (keeping its rowid), else appends. -/
def upsert_artifact (db : ArtifactDb) (a : Artifact) : ArtifactDb :=
  if db.rows.any (fun b => b.path == a.path) then
    ⟨db.rows.map (fun b => if b.path == a.path then { a with id := b.id } else b),
     db.next_rowid⟩
  else
    ⟨db.rows ++ [{ a with id := db.next_rowid }], db.next_rowid + 1⟩

/-- `get_artifact_by_path`. -/
def get_artifact_by_path (db : ArtifactDb) (path : String) : Option Artifact :=
  db.rows.find? (fun a => a.path == path)

/-- `list_artifacts` from `src/db/queries/artifact.rs`: producer and optional
reference filters ANDed, newest first, `LIMIT min(limit, 100)`. -/
def list_artifacts (db : ArtifactDb) (produced_by : Option String)
    (ref_where ref_what ref_ref : Option String) (limit : Nat) : List Artifact :=
  (sortByKeyDesc (fun a => a.created_at)
    (db.rows.filter (fun a =>
      (match produced_by with
       | some p => a.produced_by == p
       | none => true) &&
      (match ref_where, ref_what, ref_ref with
       | some w, some t, some rv => a.refs.any (fun r => ref_clause_matches r w t rv)
       | _, _, _ => true)))).take (min limit 100)

/-- `find_artifacts_by_ref` from `src/db/queries/artifact.rs`. -/
def find_artifacts_by_ref (db : ArtifactDb) (w t : String) (rv : RefValue) :
    List Artifact :=
  sortByKeyDesc (fun a => a.created_at)
    (db.rows.filter (fun a => a.refs.any (fun r => find_ref_matches r w t rv)))

/-- The `find_refs` tool (`src/mcp/tools.rs` + `find_references`): converts the
lookup string, then queries messages and artifacts. -/
def find_refs (mdb : MessageDb) (adb : ArtifactDb) (w t rv : String) :
    List Message × List Artifact :=
  (find_messages_by_ref mdb w t (refInputToJson rv),
   find_artifacts_by_ref adb w t (refInputToJson rv))

/-- Claim C3 counterexample: a stored string ref `"13"` is found by `find_refs`
with lookup `"13"` (both sides cast to text), but the exact reference-triple
filter of `listMessages` misses it — the lookup `"13"` is bound as the SQL
INTEGER 13, which does not equal the TEXT value `"13"` extracted from the
stored JSON — so reference matching is not type-insensitive in every lookup
path. -/
theorem claim_C3_counterexample :
    list_messages ⟨[⟨1, "a", "hello", [], Priority.normal, none,
        [⟨"tt", "task", RefValue.str "13"⟩], 100⟩], 2⟩
      none [] none none (some "tt") (some "task") (some "13") 10 = [] ∧
    find_refs ⟨[⟨1, "a", "hello", [], Priority.normal, none,
        [⟨"tt", "task", RefValue.str "13"⟩], 100⟩], 2⟩ ⟨[], 1⟩ "tt" "task" "13" =
      ([⟨1, "a", "hello", [], Priority.normal, none,
        [⟨"tt", "task", RefValue.str "13"⟩], 100⟩], []) := by
  decide

/-- Claim C3 (amended): reference matching is type-insensitive in the
`find_refs` path — for equal `where` and `what`, a stored numeric ref matches a
lookup string that parses to it, and a stored string ref matches both a
non-numeric lookup and a numeric lookup whose canonical decimal text equals the
stored string. In the exact reference-triple filter of
`listMessages`/`listArtifacts` the lookup is bound as an SQL INTEGER whenever
it parses as `i64`, so there a stored numeric ref 13 is matched by the lookup
string `"13"`, a non-numeric stored string ref is matched by the equal lookup,
but a stored string ref `"13"` is never matched by the lookup `"13"`. -/
theorem claim_C3_ref_matching (w t s : String) (n : Int) :
    (rustParseI64 s = some n →
      find_ref_matches ⟨w, t, .num n⟩ w t (refInputToJson s) = true) ∧
    (rustParseI64 s = none →
      find_ref_matches ⟨w, t, .str s⟩ w t (refInputToJson s) = true) ∧
    (rustParseI64 s = some n → toString n = s →
      find_ref_matches ⟨w, t, .str s⟩ w t (refInputToJson s) = true) ∧
    (rustParseI64 s = some n →
      ref_clause_matches ⟨w, t, .num n⟩ w t s = true) ∧
    (rustParseI64 s = none →
      ref_clause_matches ⟨w, t, .str s⟩ w t s = true) ∧
    (rustParseI64 s = some n →
      ref_clause_matches ⟨w, t, .str s⟩ w t s = false) := by
  refine ⟨fun h => ?_, fun h => ?_, fun h hs => ?_, fun h => ?_, fun h => ?_, fun h => ?_⟩
  · simp [find_ref_matches, refInputToJson, h, castRefText, findRefParam]
  · simp [find_ref_matches, refInputToJson, h, castRefText, findRefParam]
  · simp [find_ref_matches, refInputToJson, h, castRefText, findRefParam, hs]
  · simp [ref_clause_matches, refLookupParam, h, jsonExtractRef]
  · simp [ref_clause_matches, refLookupParam, h, jsonExtractRef]
  · simp [ref_clause_matches, refLookupParam, h, jsonExtractRef]

/-- Claim C3 witness: the amended matching rules evaluated at `where = "tt"`,
`what = "task"`, stored refs 13 and `"13"`, lookup `"13"`. -/
theorem claim_C3_witness :
    find_ref_matches ⟨"tt", "task", RefValue.num 13⟩ "tt" "task"
      (refInputToJson "13") = true ∧
    find_ref_matches ⟨"tt", "task", RefValue.str "13"⟩ "tt" "task"
      (refInputToJson "13") = true ∧
    ref_clause_matches ⟨"tt", "task", RefValue.num 13⟩ "tt" "task" "13" = true ∧
    ref_clause_matches ⟨"tt", "task", RefValue.str "13"⟩ "tt" "task" "13" = false :=
  ⟨(claim_C3_ref_matching "tt" "task" "13" 13).1 (by decide),
   (claim_C3_ref_matching "tt" "task" "13" 13).2.2.1 (by decide) (by decide),
   (claim_C3_ref_matching "tt" "task" "13" 13).2.2.2.1 (by decide),
   (claim_C3_ref_matching "tt" "task" "13" 13).2.2.2.2.2 (by decide)⟩

/-- Claim C5: posting a message whose `reply_to` id matches no stored message
fails with the NotFound error and leaves the message store unchanged, for every
store and every posting whose other arguments pass validation (non-empty
bounded content, valid tags, at most 20 refs). -/
theorem claim_C5_reply_to_not_found (db : MessageDb) (now : Int)
    (from_agent content : String) (tags : List String) (priority : Priority)
    (reply_to : Int) (refs : List Reference)
    (hc : validate_message_content content = .ok ())
    (ht : validate_tags tags = .ok ())
    (hr : refs.length ≤ 20)
    (hmiss : ∀ m ∈ db.rows, m.id ≠ reply_to) :
    post_message db now from_agent content tags priority (some reply_to) refs =
      (.error (.notFound s!"message {reply_to} not found"), db) := by
  have hnone : get_message db reply_to = none := by
    unfold get_message
    rw [List.find?_eq_none]
    intro m hm
    simpa using hmiss m hm
  have hlen : ¬refs.length > 20 := by omega
  simp [post_message, hc, ht, hnone, hlen]

/-- Claim C5 witness: posting into the empty store with `reply_to = 7`. -/
theorem claim_C5_witness :
    post_message ⟨[], 1⟩ 0 "a" "hi" [] Priority.normal (some 7) [] =
      (.error (.notFound "message 7 not found"), ⟨[], 1⟩) := by
  have h := claim_C5_reply_to_not_found ⟨[], 1⟩ 0 "a" "hi" [] Priority.normal 7 []
    (by decide) (by decide) (by decide) (by simp)
  simpa using h

/-- Claim C8: the SQL priority filter compares the CASE ordinal (low 1 .. critical
4) against `Priority::level()` (low 0 .. critical 3), an off-by-one between the
two scales, so a `priority = "high"` filter (level 2) also admits Normal
messages (CASE 2 ≥ 2): on a store holding one Normal message, `listMessages`
with minimum priority High returns that Normal message, contradicting the claim
that only High or Critical messages are returned. -/
theorem claim_C8_priority_filter_admits_lower :
    list_messages ⟨[⟨1, "a", "hello", [], Priority.normal, none, [], 100⟩], 2⟩
        none [] none (some Priority.high) none none none 10 =
      [⟨1, "a", "hello", [], Priority.normal, none, [], 100⟩] ∧
    Priority.normal ≠ Priority.high ∧ Priority.normal ≠ Priority.critical := by
  decide

/-! ## Artifact path validation and registration
(`src/core/validation/limits.rs`, `src/core/operations/artifact.rs`) -/

/-- File-system resolution oracle standing for `Path::canonicalize`: the
canonical path as a component list, or failure (e.g. the file does not
exist). -/
structure FsResolver where
  canonicalize : String → Option (List String)

/-- `Path::is_absolute` on Unix: the path starts with the root separator. -/
def isAbsolutePath (p : String) : Bool :=
  match p.data with
  | '/' :: _ => true
  | _ => false

/-- Rust `str::contains("..")` over the character list. -/
def containsParentDotsChars : List Char → Bool
  | '.' :: '.' :: _ => true
  | _ :: rest => containsParentDotsChars rest
  | [] => false

/-- Rust `path.contains("..")`. -/
def containsParentDots (p : String) : Bool :=
  containsParentDotsChars p.data

/-- `project_root.join(path)` for the relative paths that reach it. -/
def joinPath (root path : String) : String :=
  root ++ "/" ++ path

/-- `validate_artifact_description` from `src/core/validation/limits.rs`. -/
def validate_artifact_description (desc : String) : Except BBError Unit :=
  if desc.utf8ByteSize > 1024 then
    .error (.invalidInput "artifact description too long (max 1024 chars)")
  else
    .ok ()

/-- `validate_version` from `src/core/validation/limits.rs`. -/
def validate_version (version : String) : Except BBError Unit :=
  if version.utf8ByteSize > 64 then
    .error (.invalidInput "version too long (max 64 chars)")
  else
    .ok ()

/-- `validate_artifact_path` from `src/core/validation/limits.rs`: empty and
length checks, absolute-path and `..` rejection, then canonicalisation of the
joined path and of the project root (each failing closed), and the containment
check of the canonical path inside the canonical root. -/
def validate_artifact_path (fs : FsResolver) (project_root path : String) :
    Except BBError String :=
  if path.isEmpty then
    .error (.invalidInput "artifact path cannot be empty")
  else if path.utf8ByteSize > 4096 then
    .error (.invalidInput "artifact path too long (max 4096 chars)")
  else if isAbsolutePath path then
    .error (.pathTraversal "absolute path not allowed")
  else if containsParentDots path then
    .error (.pathTraversal "path traversal not allowed")
  else
    match fs.canonicalize (joinPath project_root path) with
    | none => .error (.invalidInput ("invalid path: " ++ path))
    | some canonical =>
      match fs.canonicalize project_root with
      | none => .error (.invalidInput "invalid project directory")
      | some project_canonical =>
        if project_canonical.isPrefixOf canonical then
          .ok (joinPath project_root path)
        else
          .error (.pathTraversal "path escapes project directory")

/-- `register_artifact` from `src/core/operations/artifact.rs`: path,
description, version and ref-count validation in source order, then the upsert
and the read-back of the stored row. -/
def register_artifact (fs : FsResolver) (project_root : String) (db : ArtifactDb)
    (now : Int) (path produced_by description : String) (version : Option String)
    (refs : List Reference) : Except BBError Artifact × ArtifactDb :=
  match validate_artifact_path fs project_root path with
  | .error e => (.error e, db)
  | .ok _ =>
    match validate_artifact_description description with
    | .error e => (.error e, db)
    | .ok _ =>
      match (match version with
             | some v => validate_version v
             | none => .ok ()) with
      | .error e => (.error e, db)
      | .ok _ =>
        if refs.length > 20 then
          (.error (.invalidInput "too many refs (max 20)"), db)
        else
          let artifact : Artifact := ⟨0, path, produced_by, description, version, refs, now⟩
          let db2 := upsert_artifact db artifact
          match get_artifact_by_path db2 path with
          | some a => (.ok a, db2)
          | none => (.error (.notFound s!"artifact {path} not found after upsert"), db2)

/-- Claim C9: artifact path validation rejects, each with its specific error,
the empty path, any over-length path, any absolute path, any path containing a
`..` segment, any path whose resolution against the project root fails (fail
closed, e.g. the referenced file does not exist), and any path whose resolved
form lies outside the resolved project root; and whenever path validation
fails, `register_artifact` returns that error with the artifact store
untouched. -/
theorem claim_C9_path_validation (fs : FsResolver) (root path : String)
    (db : ArtifactDb) (now : Int) (produced_by description : String)
    (version : Option String) (refs : List Reference) :
    (path = "" → validate_artifact_path fs root path =
      .error (.invalidInput "artifact path cannot be empty")) ∧
    (path ≠ "" → path.utf8ByteSize > 4096 → validate_artifact_path fs root path =
      .error (.invalidInput "artifact path too long (max 4096 chars)")) ∧
    (path ≠ "" → path.utf8ByteSize ≤ 4096 → isAbsolutePath path = true →
      validate_artifact_path fs root path =
        .error (.pathTraversal "absolute path not allowed")) ∧
    (path ≠ "" → path.utf8ByteSize ≤ 4096 → isAbsolutePath path = false →
      containsParentDots path = true →
      validate_artifact_path fs root path =
        .error (.pathTraversal "path traversal not allowed")) ∧
    (path ≠ "" → path.utf8ByteSize ≤ 4096 → isAbsolutePath path = false →
      containsParentDots path = false →
      fs.canonicalize (joinPath root path) = none →
      validate_artifact_path fs root path =
        .error (.invalidInput ("invalid path: " ++ path))) ∧
    (∀ c pc, path ≠ "" → path.utf8ByteSize ≤ 4096 → isAbsolutePath path = false →
      containsParentDots path = false →
      fs.canonicalize (joinPath root path) = some c →
      fs.canonicalize root = some pc →
      pc.isPrefixOf c = false →
      validate_artifact_path fs root path =
        .error (.pathTraversal "path escapes project directory")) ∧
    (∀ e, validate_artifact_path fs root path = .error e →
      register_artifact fs root db now path produced_by description version refs =
        (.error e, db)) := by
  refine ⟨?_, ?_, ?_, ?_, ?_, ?_, ?_⟩
  · rintro rfl
    rfl
  · intro h1 h2
    have hne : path.isEmpty = false :=
      Bool.eq_false_iff.mpr (fun hb => h1 ((String.isEmpty_iff path).mp hb))
    simp [validate_artifact_path, hne, h2]
  · intro h1 h2 h3
    have hne : path.isEmpty = false :=
      Bool.eq_false_iff.mpr (fun hb => h1 ((String.isEmpty_iff path).mp hb))
    have h2n : ¬path.utf8ByteSize > 4096 := by omega
    simp [validate_artifact_path, hne, h2n, h3]
  · intro h1 h2 h3 h4
    have hne : path.isEmpty = false :=
      Bool.eq_false_iff.mpr (fun hb => h1 ((String.isEmpty_iff path).mp hb))
    have h2n : ¬path.utf8ByteSize > 4096 := by omega
    simp [validate_artifact_path, hne, h2n, h3, h4]
  · intro h1 h2 h3 h4 h5
    have hne : path.isEmpty = false :=
      Bool.eq_false_iff.mpr (fun hb => h1 ((String.isEmpty_iff path).mp hb))
    have h2n : ¬path.utf8ByteSize > 4096 := by omega
    simp [validate_artifact_path, hne, h2n, h3, h4, h5]
  · intro c pc h1 h2 h3 h4 h5 h6 h7
    have hne : path.isEmpty = false :=
      Bool.eq_false_iff.mpr (fun hb => h1 ((String.isEmpty_iff path).mp hb))
    have h2n : ¬path.utf8ByteSize > 4096 := by omega
    simp [validate_artifact_path, hne, h2n, h3, h4, h5, h6, h7]
  · intro e he
    simp [register_artifact, he]

/-- Byte size of a repeated character (avoids unfolding a 4097-step fold). -/
lemma utf8ByteSize_go_replicate (c : Char) :
    ∀ n, String.utf8ByteSize.go (List.replicate n c) = n * c.utf8Size
  | 0 => by simp [String.utf8ByteSize.go]
  | n + 1 => by
    rw [List.replicate_succ]
    show String.utf8ByteSize.go (List.replicate n c) + c.utf8Size = _
    rw [utf8ByteSize_go_replicate c n]
    ring

/-- Claim C9 witness: each rejection evaluated concretely — empty path, a
4097-byte path, `"/etc/passwd"`, `"../secret"`, a path whose resolution fails,
a path resolving outside the root, and the untouched store on rejection. -/
theorem claim_C9_witness :
    validate_artifact_path ⟨fun _ => none⟩ "/r" "" =
      .error (.invalidInput "artifact path cannot be empty") ∧
    validate_artifact_path ⟨fun _ => none⟩ "/r" (String.mk (List.replicate 4097 'a')) =
      .error (.invalidInput "artifact path too long (max 4096 chars)") ∧
    validate_artifact_path ⟨fun _ => none⟩ "/r" "/etc/passwd" =
      .error (.pathTraversal "absolute path not allowed") ∧
    validate_artifact_path ⟨fun _ => none⟩ "/r" "../secret" =
      .error (.pathTraversal "path traversal not allowed") ∧
    validate_artifact_path ⟨fun _ => none⟩ "/r" "a" =
      .error (.invalidInput "invalid path: a") ∧
    validate_artifact_path
        ⟨fun s => if s = "/r/a" then some ["x"] else if s = "/r" then some ["r"] else none⟩
        "/r" "a" =
      .error (.pathTraversal "path escapes project directory") ∧
    register_artifact ⟨fun _ => none⟩ "/r" ⟨[], 1⟩ 0 "../secret" "me" "d" none [] =
      (.error (.pathTraversal "path traversal not allowed"), ⟨[], 1⟩) :=
  ⟨(claim_C9_path_validation ⟨fun _ => none⟩ "/r" "" ⟨[], 1⟩ 0 "me" "d" none []).1 rfl,
   (claim_C9_path_validation ⟨fun _ => none⟩ "/r" (String.mk (List.replicate 4097 'a'))
      ⟨[], 1⟩ 0 "me" "d" none []).2.1 (by decide)
      (by
        show String.utf8ByteSize.go (List.replicate 4097 'a') > 4096
        rw [utf8ByteSize_go_replicate, show Char.utf8Size 'a' = 1 from rfl]
        norm_num),
   (claim_C9_path_validation ⟨fun _ => none⟩ "/r" "/etc/passwd"
      ⟨[], 1⟩ 0 "me" "d" none []).2.2.1 (by decide) (by decide) (by decide),
   (claim_C9_path_validation ⟨fun _ => none⟩ "/r" "../secret"
      ⟨[], 1⟩ 0 "me" "d" none []).2.2.2.1 (by decide) (by decide) (by decide) (by decide),
   (claim_C9_path_validation ⟨fun _ => none⟩ "/r" "a"
      ⟨[], 1⟩ 0 "me" "d" none []).2.2.2.2.1 (by decide) (by decide) (by decide)
      (by decide) rfl,
   (claim_C9_path_validation
      ⟨fun s => if s = "/r/a" then some ["x"] else if s = "/r" then some ["r"] else none⟩
      "/r" "a" ⟨[], 1⟩ 0 "me" "d" none []).2.2.2.2.2.1 ["x"] ["r"]
      (by decide) (by decide) (by decide) (by decide) (by decide) (by decide) (by decide),
   (claim_C9_path_validation ⟨fun _ => none⟩ "/r" "../secret"
      ⟨[], 1⟩ 0 "me" "d" none []).2.2.2.2.2.2
      (.pathTraversal "path traversal not allowed")
      ((claim_C9_path_validation ⟨fun _ => none⟩ "/r" "../secret"
        ⟨[], 1⟩ 0 "me" "d" none []).2.2.2.1 (by decide) (by decide) (by decide)
        (by decide))⟩

end Blackboard
